import Mathlib

/-!
Verification of the BackendERP inventory core.

Shallow embedding of the ledger-and-projection engine of the repository:
`Models/InventoryTransaction.js`, `Controllers/inventoryTransactionController.js`,
`Controllers/medicationController.js` and `Controllers/purchaseOrderController.js`.

Modelling conventions:
- The MongoDB collection of `InventoryTransaction` documents is a `List Movement`
  in insertion order; `_id` is the `id : Nat` field (allocated by callers).
- Quantities are integers (`Int`).  The schema constraint
  `min: 0.000001` together with the pre-validate check `qty > 0` collapses to
  `0 < qty` on integral quantities.
- `async` controller bodies become pure functions returning `Except TxError`.
  `session.withTransaction` is all-or-nothing: an error inside the callback
  aborts every write of the unit, which the `Except` monad models exactly
  (the new ledger is only produced on success).
- HTTP 4xx responses become `TxError.validation` / `TxError.notFound`;
  the 409 safety-stock rejection becomes `TxError.safety projected floor`,
  carrying the same two values interpolated into the source's message.
- `createdBy` / `updatedBy` audit identities and notification documents are
  not carried: no claim mentions them.
-/

namespace ERP

/-- `TX_TYPES` of `Models/InventoryTransaction.js`. -/
inductive TxType
  | IN
  | OUT
  | ADJUST
deriving DecidableEq, Repr

/-- The `adjustSign` enum `['IN', 'OUT']`. -/
inductive AdjSign
  | IN
  | OUT
deriving DecidableEq, Repr

/-- `REF_TYPES` of `Models/InventoryTransaction.js`. -/
inductive RefType
  | PO
  | PO_RECEIPT
  | ISSUE
  | ADJ
  | XFER
  | OTHER
deriving DecidableEq, Repr

/-- `REASONS` of `Models/InventoryTransaction.js`. -/
inductive Reason
  | PURCHASE_RECEIPT
  | CONSUMPTION
  | RETURN_IN
  | RETURN_OUT
  | ADJUST_POS
  | ADJUST_NEG
  | TRANSFER_IN
  | TRANSFER_OUT
  | WRITE_OFF
  | OTHER
deriving DecidableEq, Repr

/-- One `InventoryTransaction` document (`inventoryTransactionSchema`). -/
structure Movement where
  id : Nat
  hospital : Nat
  medication : Nat
  type : TxType
  adjustSign : Option AdjSign := none
  qty : Int
  uom : String := "unit"
  lot : Option String := none
  expiryDate : Option Int := none
  unitCost : Option Int := none
  refType : RefType := RefType.OTHER
  refId : Option Nat := none
  refCode : Option String := none
  reason : Reason := Reason.OTHER
  notes : Option String := none
  createdAt : Int := 0
deriving DecidableEq, Repr

/-- `signedQtyExpr` (`inventoryTransactionController.js` lines 11-27):
`IN` → `qty`, `OUT` → `qty * -1`, `ADJUST` with sign `IN`/`OUT` → `±qty`,
any other combination → the pipeline default `0`. -/
def signedQtyExpr (m : Movement) : Int :=
  match m.type, m.adjustSign with
  | TxType.IN, _ => m.qty
  | TxType.OUT, _ => m.qty * (-1)
  | TxType.ADJUST, some AdjSign.IN => m.qty
  | TxType.ADJUST, some AdjSign.OUT => m.qty * (-1)
  | TxType.ADJUST, none => 0

/-- The schema method `getSignedQty` (`InventoryTransaction.js` lines 160-165). -/
def Movement.getSignedQty (m : Movement) : Int :=
  if m.type = TxType.IN then m.qty
  else if m.type = TxType.OUT then -m.qty
  else if m.adjustSign = some AdjSign.IN then m.qty else -m.qty

/-- The argument object of `getCurrentStock`: hospital and medication are
mandatory, `lot` / `expiryDate` optionally narrow the match. -/
structure Scope where
  hospitalId : Nat
  medicationId : Nat
  lot : Option String := none
  expiryDate : Option Int := none
deriving DecidableEq, Repr

/-- `if (lot) match.lot = lot` — an absent filter matches everything,
a present filter requires the exact stored value. -/
def optEq {α : Type} [DecidableEq α] (filt : Option α) (v : Option α) : Bool :=
  match filt with
  | none => true
  | some x => decide (v = some x)

/-- The `$match` stage of `getCurrentStock`. -/
def matchScope (s : Scope) (m : Movement) : Bool :=
  decide (m.hospital = s.hospitalId) && decide (m.medication = s.medicationId)
    && optEq s.lot m.lot && optEq s.expiryDate m.expiryDate

/-- The `$group / $sum: signedQtyExpr` stage (a fold over the matched documents). -/
def sumSigned (ms : List Movement) : Int :=
  ms.foldl (fun acc m => acc + signedQtyExpr m) 0

/-- `getCurrentStock` (`inventoryTransactionController.js` lines 30-43):
sum of signed quantities over the movements matching the scope
(`agg[0]?.stock || 0` makes the empty aggregate return `0`, which the
empty fold gives directly). -/
def getCurrentStock (l : List Movement) (s : Scope) : Int :=
  sumSigned (l.filter (matchScope s))

/-- The `policy` sub-document of `Models/Medication.js`; each field may be
absent, matching the `?.` / `|| 0` accesses in the controllers. -/
structure Policy where
  reorderPoint : Option Int := none
  safetyStock : Option Int := none
  avgMonthlyConsumption : Option Int := none
deriving DecidableEq, Repr

/-- A `Medication` document (the fields the inventory core reads). -/
structure Medication where
  id : Nat
  name : String := ""
  uom : Option String := none
  unitPrice : Option Int := none
  policy : Option Policy := none
  preferredSupplier : Option Nat := none
deriving DecidableEq, Repr

/-- `medication.policy?.safetyStock || 0`. -/
def policySafetyStock (med : Medication) : Int :=
  (med.policy.bind Policy.safetyStock).getD 0

/-- `medication.policy?.reorderPoint || 0`. -/
def policyReorderPoint (med : Medication) : Int :=
  (med.policy.bind Policy.reorderPoint).getD 0

/-- `medication.policy?.avgMonthlyConsumption || 0`. -/
def policyAvgMonthly (med : Medication) : Int :=
  (med.policy.bind Policy.avgMonthlyConsumption).getD 0

/-- Error outcomes of the controllers: 400-style input rejections,
404 lookups, and the 409 safety-stock rejection which carries the
projected stock and the floor (both interpolated into the message of
`assertSafetyStock`). -/
inductive TxError
  | validation (msg : String)
  | notFound (msg : String)
  | safety (projected : Int) (floor : Int)
deriving DecidableEq, Repr

/-- The `pre('validate')` hook of `inventoryTransactionSchema`
(lines 135-153) plus the schema `min` on `qty`: fails unless `qty > 0`,
and for `ADJUST` unless `adjustSign` is present. -/
def validateTx (m : Movement) : Option TxError :=
  if ¬ 0 < m.qty then some (TxError.validation "qty must be > 0")
  else if m.type = TxType.ADJUST ∧ m.adjustSign = none then
    some (TxError.validation "adjustSign is required for ADJUST transactions")
  else none

/-- `new InventoryTransaction(...); await tx.save(...)`: validate, then
append to the collection.  Nothing is written on a validation failure. -/
def saveTx (l : List Movement) (m : Movement) : Except TxError (List Movement) :=
  match validateTx m with
  | some e => Except.error e
  | none => Except.ok (l ++ [m])

/-- `assertSafetyStock` (`inventoryTransactionController.js` lines 46-55):
throws (modelled as `some error`) iff the safety floor is positive and the
projected stock is strictly below it. -/
def assertSafetyStock (med : Medication) (projected : Int) : Option TxError :=
  let safety := policySafetyStock med
  if 0 < safety ∧ projected < safety then some (TxError.safety projected safety)
  else none

/-- Whether a controller outcome is the safety-stock rejection. -/
def isSafetyErr {α : Type} : Except TxError α → Bool
  | Except.error (TxError.safety _ _) => true
  | _ => false

/-- Ledgers reachable from the empty collection through validated appends. -/
inductive Committed : List Movement → Prop
  | nil : Committed []
  | step {l l2 : List Movement} {m : Movement} :
      Committed l → saveTx l m = Except.ok l2 → Committed l2

/-- The `{ before, after, projected }` payload of the single-movement
controllers, together with the resulting collection. -/
structure StockSnap where
  ledger : List Movement
  before : Int
  after : Int
  projected : Int
deriving DecidableEq, Repr

/-- `createIn` (`inventoryTransactionController.js` lines 135-183).
`!qty` rejects a zero quantity; the stock snapshots are taken over the
aggregate (hospital, medication) scope; entries are never guard-checked. -/
def createIn (l : List Movement) (med : Medication) (hospital : Nat) (qty : Int)
    (lot : Option String) (expiryDate : Option Int) (unitCost : Option Int)
    (reason : Reason) (refType : RefType) (refId : Option Nat)
    (refCode : Option String) (now : Int) (newId : Nat) :
    Except TxError StockSnap :=
  if qty = 0 then
    Except.error (TxError.validation "hospital, medication y qty son requeridos")
  else
    let current := getCurrentStock l ⟨hospital, med.id, none, none⟩
    let projected := current + qty
    let tx : Movement :=
      { id := newId, hospital := hospital, medication := med.id,
        type := TxType.IN, qty := qty, uom := med.uom.getD "unit", lot := lot,
        expiryDate := expiryDate,
        unitCost := some ((unitCost.orElse fun _ => med.unitPrice).getD 0),
        reason := reason, refType := refType, refId := refId, refCode := refCode,
        createdAt := now }
    match saveTx l tx with
    | Except.error e => Except.error e
    | Except.ok l2 =>
        Except.ok ⟨l2, current, getCurrentStock l2 ⟨hospital, med.id, none, none⟩,
          projected⟩

/-- `createOut` (`inventoryTransactionController.js` lines 192-241):
projection over the aggregate scope, safety guard, then the append. -/
def createOut (l : List Movement) (med : Medication) (hospital : Nat) (qty : Int)
    (lot : Option String) (expiryDate : Option Int) (reason : Reason)
    (refType : RefType) (refId : Option Nat) (refCode : Option String)
    (now : Int) (newId : Nat) : Except TxError StockSnap :=
  if qty = 0 then
    Except.error (TxError.validation "hospital, medication y qty son requeridos")
  else
    let current := getCurrentStock l ⟨hospital, med.id, none, none⟩
    let projected := current - qty
    match assertSafetyStock med projected with
    | some e => Except.error e
    | none =>
      let tx : Movement :=
        { id := newId, hospital := hospital, medication := med.id,
          type := TxType.OUT, qty := qty, uom := med.uom.getD "unit", lot := lot,
          expiryDate := expiryDate, reason := reason, refType := refType,
          refId := refId, refCode := refCode, createdAt := now }
      match saveTx l tx with
      | Except.error e => Except.error e
      | Except.ok l2 =>
          Except.ok ⟨l2, current, getCurrentStock l2 ⟨hospital, med.id, none, none⟩,
            projected⟩

/-- `createAdjust` (`inventoryTransactionController.js` lines 250-311):
requires a sign, projects over the aggregate scope, and guard-checks only
the decreasing direction. -/
def createAdjust (l : List Movement) (med : Medication) (hospital : Nat)
    (qty : Int) (adjustSign : Option AdjSign) (lot : Option String)
    (expiryDate : Option Int) (now : Int) (newId : Nat) :
    Except TxError StockSnap :=
  match adjustSign with
  | none =>
    Except.error (TxError.validation "hospital, medication, qty y adjustSign son requeridos")
  | some sgn =>
    if qty = 0 then
      Except.error (TxError.validation "hospital, medication, qty y adjustSign son requeridos")
    else
      let current := getCurrentStock l ⟨hospital, med.id, none, none⟩
      let projected := if sgn = AdjSign.IN then current + qty else current - qty
      match (if sgn = AdjSign.OUT then assertSafetyStock med projected else none) with
      | some e => Except.error e
      | none =>
        let tx : Movement :=
          { id := newId, hospital := hospital, medication := med.id,
            type := TxType.ADJUST, adjustSign := some sgn, qty := qty,
            uom := med.uom.getD "unit", lot := lot, expiryDate := expiryDate,
            reason := if sgn = AdjSign.IN then Reason.ADJUST_POS else Reason.ADJUST_NEG,
            refType := RefType.ADJ, createdAt := now }
        match saveTx l tx with
        | Except.error e => Except.error e
        | Except.ok l2 =>
            Except.ok ⟨l2, current,
              getCurrentStock l2 ⟨hospital, med.id, none, none⟩, projected⟩

/-- Result payload of `transferBetweenHospitals`. -/
structure TransferResult where
  ledger : List Movement
  outId : Nat
  inId : Nat
  fromBefore : Int
  fromAfter : Int
  toAfter : Int
deriving DecidableEq, Repr

/-- `transferBetweenHospitals` (`inventoryTransactionController.js`
lines 321-395): rejects equal endpoints, guard-checks the source leg only,
then appends the `OUT` at the source and the `IN` at the destination inside
one `session.withTransaction` (all-or-nothing).  Only the `IN` leg carries
`refId: outTx._id`; the `OUT` leg has no `refId`. -/
def transferBetweenHospitals (l : List Movement) (med : Medication)
    (fromHospital toHospital : Nat) (qty : Int) (lot : Option String)
    (expiryDate : Option Int) (refCode : Option String) (now : Int)
    (newId : Nat) : Except TxError TransferResult :=
  if qty = 0 then
    Except.error (TxError.validation "fromHospital, toHospital, medication y qty son requeridos")
  else if fromHospital = toHospital then
    Except.error (TxError.validation "fromHospital y toHospital no pueden ser iguales")
  else
    let currentFrom := getCurrentStock l ⟨fromHospital, med.id, none, none⟩
    let projectedFrom := currentFrom - qty
    match assertSafetyStock med projectedFrom with
    | some e => Except.error e
    | none =>
      let outTx : Movement :=
        { id := newId, hospital := fromHospital, medication := med.id,
          type := TxType.OUT, qty := qty, uom := med.uom.getD "unit",
          lot := lot, expiryDate := expiryDate, reason := Reason.TRANSFER_OUT,
          refType := RefType.XFER, refCode := refCode, createdAt := now }
      let inTx : Movement :=
        { id := newId + 1, hospital := toHospital, medication := med.id,
          type := TxType.IN, qty := qty, uom := med.uom.getD "unit",
          lot := lot, expiryDate := expiryDate, reason := Reason.TRANSFER_IN,
          refType := RefType.XFER, refId := some outTx.id, refCode := refCode,
          createdAt := now }
      match saveTx l outTx with
      | Except.error e => Except.error e
      | Except.ok l1 =>
        match saveTx l1 inTx with
        | Except.error e => Except.error e
        | Except.ok l2 =>
          Except.ok ⟨l2, outTx.id, inTx.id, currentFrom,
            getCurrentStock l2 ⟨fromHospital, med.id, none, none⟩,
            getCurrentStock l2 ⟨toHospital, med.id, none, none⟩⟩

/-- The movements a transfer appended (empty when it was rejected). -/
def transferLegs (l : List Movement) (r : Except TxError TransferResult) :
    List Movement :=
  match r with
  | Except.ok t => t.ledger.drop l.length
  | Except.error _ => []

/-- The `$match` of `writeOffExpired`: same hospital, non-null expiry
`≤ cutoff`, optional medication filter. -/
def expiredMatch (hospital : Nat) (cutoff : Int) (medFilter : Option Nat)
    (m : Movement) : Bool :=
  decide (m.hospital = hospital)
    && (match m.expiryDate with
        | none => false
        | some d => decide (d ≤ cutoff))
    && (match medFilter with
        | none => true
        | some mid => decide (m.medication = mid))

/-- The `$group` key `{ medication, lot, expiryDate }` of `writeOffExpired`. -/
structure LotKey where
  medication : Nat
  lot : Option String
  expiryDate : Option Int
deriving DecidableEq, Repr

def Movement.lotKey (m : Movement) : LotKey :=
  ⟨m.medication, m.lot, m.expiryDate⟩

/-- Per-group signed stock within an already `$match`-filtered set. -/
def lotStock (ms : List Movement) (k : LotKey) : Int :=
  sumSigned (ms.filter (fun m => decide (m.lotKey = k)))

/-- One element of the `lots` aggregate of `writeOffExpired`. -/
structure LotGroup where
  key : LotKey
  stock : Int
deriving DecidableEq, Repr

/-- The `lots` pipeline of `writeOffExpired` (lines 419-428): group the
matched movements by (medication, lot, expiry) — group order modelled as
first occurrence — and keep the groups with strictly positive stock. -/
def writeOffLots (l : List Movement) (hospital : Nat) (cutoff : Int)
    (medFilter : Option Nat) : List LotGroup :=
  let ms := l.filter (expiredMatch hospital cutoff medFilter)
  ((ms.map Movement.lotKey).dedup.map (fun k => LotGroup.mk k (lotStock ms k))).filter
    (fun g => decide (0 < g.stock))

/-- The `for (const l of lots)` body inside `session.withTransaction` of
`writeOffExpired` (lines 434-460): a missing medication is skipped
(`continue`); otherwise the guard is asserted and — the assertion throwing
aborts the whole transaction — an `OUT` with reason `WRITE_OFF` is
appended.  The guard's `getCurrentStock` aggregate carries no session, so
inside the transaction it reads only the pre-batch committed ledger `l0`,
never the `OUT`s appended by earlier iterations of the same batch; the
appends themselves (`tx.save({ session })`) accumulate in the
in-transaction ledger that is threaded through. -/
def writeOffLoop (meds : Nat → Option Medication) (hospital : Nat) (now : Int)
    (l0 : List Movement) :
    List Movement → List LotGroup → Nat → Except TxError (List Movement)
  | l, [], _ => Except.ok l
  | l, g :: rest, nid =>
    match meds g.key.medication with
    | none => writeOffLoop meds hospital now l0 l rest nid
    | some med =>
      let totalCurrent := getCurrentStock l0 ⟨hospital, g.key.medication, none, none⟩
      let projected := totalCurrent - g.stock
      match assertSafetyStock med projected with
      | some e => Except.error e
      | none =>
        let tx : Movement :=
          { id := nid, hospital := hospital, medication := g.key.medication,
            type := TxType.OUT, qty := g.stock, uom := med.uom.getD "unit",
            lot := g.key.lot, expiryDate := g.key.expiryDate,
            reason := Reason.WRITE_OFF, refType := RefType.OTHER,
            notes := some "Write-off por caducidad", createdAt := now }
        match saveTx l tx with
        | Except.error e => Except.error e
        | Except.ok l2 => writeOffLoop meds hospital now l0 l2 rest (nid + 1)

/-- `writeOffExpired` (`inventoryTransactionController.js` lines 405-468).
On success the response `data` is the `lots` aggregate; an error inside the
transaction leaves the ledger untouched.  The pre-batch committed ledger
`l` is both the starting in-transaction state and the state every guard
check reads (the session-less aggregate). -/
def writeOffExpired (l : List Movement) (meds : Nat → Option Medication)
    (hospital : Nat) (cutoff : Int) (medFilter : Option Nat) (now : Int)
    (nid : Nat) : Except TxError (List Movement × List LotGroup) :=
  let lots := writeOffLots l hospital cutoff medFilter
  if lots.isEmpty then Except.ok (l, [])
  else
    match writeOffLoop meds hospital now l l lots nid with
    | Except.error e => Except.error e
    | Except.ok l2 => Except.ok (l2, lots)

/-- The `$match` of `kardexByMedication`: hospital, medication, optional
`createdAt` window (`$gte` / `$lte`). -/
def kardexMatch (hospital medicationId : Nat) (dateFrom dateTo : Option Int)
    (m : Movement) : Bool :=
  decide (m.hospital = hospital) && decide (m.medication = medicationId)
    && (match dateFrom with
        | none => true
        | some a => decide (a ≤ m.createdAt))
    && (match dateTo with
        | none => true
        | some b => decide (m.createdAt ≤ b))

/-- The kardex sort key `{ createdAt: 1, _id: 1 }`: commit time first,
insertion id (`_id`) as the secondary tie-break. -/
def kardexLE (a b : Movement) : Prop :=
  a.createdAt < b.createdAt ∨ (a.createdAt = b.createdAt ∧ a.id ≤ b.id)

instance : DecidableRel kardexLE := fun a b => by
  unfold kardexLE; infer_instance

instance : IsTotal Movement kardexLE := ⟨by
  intro a b
  rcases lt_trichotomy a.createdAt b.createdAt with h | h | h
  · exact Or.inl (Or.inl h)
  · rcases Nat.le_total a.id b.id with hq | hq
    · exact Or.inl (Or.inr ⟨h, hq⟩)
    · exact Or.inr (Or.inr ⟨h.symm, hq⟩)
  · exact Or.inr (Or.inl h)⟩

instance : IsTrans Movement kardexLE := ⟨by
  intro a b c hab hbc
  rcases hab with h | ⟨he, hq⟩ <;> rcases hbc with h2 | ⟨he2, hq2⟩
  · exact Or.inl (h.trans h2)
  · exact Or.inl (he2 ▸ h)
  · exact Or.inl (he ▸ h2)
  · exact Or.inr ⟨he.trans he2, hq.trans hq2⟩⟩

/-- One output row of the kardex: the movement, its `signedQty` (the `$set`
stage), and `runningBalance` (the `$setWindowFields` cumulative sum over
`['unbounded', 'current']`). -/
structure KardexRow where
  mv : Movement
  signedQty : Int
  runningBalance : Int
deriving DecidableEq, Repr

/-- Cumulative window sum over the sorted documents. -/
def runningRows : Int → List Movement → List KardexRow
  | _, [] => []
  | acc, m :: rest =>
    let b := acc + signedQtyExpr m
    ⟨m, signedQtyExpr m, b⟩ :: runningRows b rest

/-- `kardexByMedication` (`inventoryTransactionController.js` lines
478-520): match, sort by `(createdAt, _id)` (a stable sort), set the signed
quantity, and accumulate the running balance. -/
def kardexByMedication (l : List Movement) (hospital medicationId : Nat)
    (dateFrom dateTo : Option Int) : List KardexRow :=
  runningRows 0
    ((l.filter (kardexMatch hospital medicationId dateFrom dateTo)).insertionSort kardexLE)

/-- The `createdAt` window of the kardex `$match` (`$gte` / `$lte`),
as a standalone predicate on the ledger. -/
def dateWindow (dateFrom dateTo : Option Int) (m : Movement) : Bool :=
  (match dateFrom with
   | none => true
   | some a => decide (a ≤ m.createdAt))
    && (match dateTo with
        | none => true
        | some b => decide (m.createdAt ≤ b))

/-- The final running balance of a kardex row list (0 for an empty reply,
as `agg[0]?.stock || 0` would give). -/
def lastBalance (rows : List KardexRow) : Int :=
  ((rows.map KardexRow.runningBalance).getLast?).getD 0

/-- Outcome of `maybeTriggerReorder`: whether the `LOW_STOCK` notification
was created, the observed stock, the computed `toBuy` when the
preferred-supplier branch ran, and whether the `DRAFT` purchase order was
created. -/
structure ReorderOutcome where
  created : Bool
  stockQty : Int
  proposedQty : Option Int
  poCreated : Bool
deriving DecidableEq, Repr

/-- `maybeTriggerReorder` (`medicationController.js` lines 46-113):
returns `created: false` when `stock > reorderPoint`; otherwise emits the
low-stock notification, and — when a preferred supplier is designated and
resolves — computes `toBuy = max(0, safety + avgMonthly - stock)` and
creates the `DRAFT` purchase order only when `toBuy > 0`. -/
def maybeTriggerReorder (l : List Movement) (hospitalId : Nat)
    (med : Medication) (supplierExists : Nat → Bool) : ReorderOutcome :=
  let stock := getCurrentStock l ⟨hospitalId, med.id, none, none⟩
  let reorderPoint := policyReorderPoint med
  if reorderPoint < stock then ⟨false, stock, none, false⟩
  else
    match med.preferredSupplier with
    | none => ⟨true, stock, none, false⟩
    | some sid =>
      if supplierExists sid then
        let safety := policySafetyStock med
        let target := safety + policyAvgMonthly med
        let toBuy := max 0 (target - stock)
        ⟨true, stock, some toBuy, decide (0 < toBuy)⟩
      else ⟨true, stock, none, false⟩

/-- The `action` parameter of `updateStock`. -/
inductive StockAction
  | increment
  | decrement
  | set
deriving DecidableEq, Repr

/-- The `{ before, after }` payload of `updateStock` plus the resulting
collection (`delta === 0` answers with the unchanged stock). -/
structure UpdateStockResult where
  ledger : List Movement
  before : Int
  after : Int
deriving DecidableEq, Repr

/-- `updateStock` (`medicationController.js` lines 239-319): projects the
current stock narrowed by the request's `lot` / `expiryDate`, derives the
delta per action, answers without writing when `delta === 0`, blocks when
the projection would breach a positive safety floor, and otherwise appends
one `ADJUST` movement of `|delta|` signed by the delta's direction.  (The
reorder trigger that runs afterwards is `maybeTriggerReorder` above.) -/
def updateStock (l : List Movement) (med : Medication) (hospitalId : Nat)
    (action : StockAction) (qty : Int) (lot : Option String)
    (expiryDate : Option Int) (unitCost : Option Int) (now : Int)
    (nid : Nat) : Except TxError UpdateStockResult :=
  let current := getCurrentStock l ⟨hospitalId, med.id, lot, expiryDate⟩
  let delta :=
    match action with
    | StockAction.increment => qty
    | StockAction.decrement => -qty
    | StockAction.set => qty - current
  if delta = 0 then Except.ok ⟨l, current, current⟩
  else
    let projected := current + delta
    let safety := policySafetyStock med
    if 0 < safety ∧ projected < safety then
      Except.error (TxError.safety projected safety)
    else
      let tx : Movement :=
        { id := nid, hospital := hospitalId, medication := med.id,
          type := TxType.ADJUST,
          adjustSign := some (if 0 < delta then AdjSign.IN else AdjSign.OUT),
          qty := |delta|, uom := med.uom.getD "unit", lot := lot,
          expiryDate := expiryDate,
          unitCost := some ((unitCost.orElse fun _ => med.unitPrice).getD 0),
          reason := if 0 < delta then Reason.ADJUST_POS else Reason.ADJUST_NEG,
          refType := RefType.ADJ, createdAt := now }
      match saveTx l tx with
      | Except.error e => Except.error e
      | Except.ok l2 =>
        Except.ok ⟨l2, current, getCurrentStock l2 ⟨hospitalId, med.id, none, none⟩⟩

/-- Purchase-order status machine (`Models/PurchaseOrder.js`). -/
inductive POStatus
  | DRAFT
  | SENT
  | RECEIVED
  | CANCELLED
deriving DecidableEq, Repr

/-- One purchase-order line (the fields the receive path reads). -/
structure POLine where
  medication : Nat
  qty : Int
  unitPrice : Int := 0
deriving DecidableEq, Repr

/-- A purchase-order document (the fields the receive path reads/writes). -/
structure PurchaseOrder where
  id : Nat
  hospital : Nat
  code : Option String := none
  status : POStatus
  lines : List POLine
  receivedAt : Option Int := none
deriving DecidableEq, Repr

/-- `getReceivedQtyByMedication` (`purchaseOrderController.js` lines 33-41)
read at one medication: the sum of `qty` over `IN` movements with
`refType: 'PO'` and `refId: poId` for that medication (an absent map entry
reads as `|| 0`, the empty sum). -/
def getReceivedQtyByMedication (l : List Movement) (poId : Nat)
    (medicationId : Nat) : Int :=
  ((l.filter (fun m => decide (m.refType = RefType.PO)
      && decide (m.refId = some poId) && decide (m.type = TxType.IN)
      && decide (m.medication = medicationId))).map Movement.qty).sum

/-- Per-line `pending: Math.max(0, qty - received)` of
`purchaseOrderController.js`. -/
def pendingQty (l : List Movement) (po : PurchaseOrder) (li : POLine) : Int :=
  max 0 (li.qty - getReceivedQtyByMedication l po.id li.medication)

/-- `po.lines.every(l => received >= l.qty)` of `receivePO`. -/
def allLinesReceived (l : List Movement) (po : PurchaseOrder) : Bool :=
  po.lines.all (fun li =>
    decide (li.qty ≤ getReceivedQtyByMedication l po.id li.medication))

/-- One submitted receipt item of `receivePO`. -/
structure ReceiveItem where
  medication : Nat
  qty : Int
  lot : Option String := none
  expiryDate : Option Int := none
  unitCost : Option Int := none
deriving DecidableEq, Repr

/-- The per-item validation loop of `receivePO` (lines 256-263): each item
needs a positive quantity and must name a medication that is a line of the
order; the first offence rejects the whole receipt. -/
def validateItems (po : PurchaseOrder) : List ReceiveItem → Option TxError
  | [] => none
  | it :: rest =>
    if it.qty ≤ 0 then
      some (TxError.validation "Cada item requiere medication y qty>0")
    else if ¬ po.lines.any (fun li => decide (li.medication = it.medication)) then
      some (TxError.validation "Item contiene medicamento que no está en la PO")
    else validateItems po rest

/-- The append loop inside `session.withTransaction` of `receivePO`
(lines 265-288): one `IN` per item, `refType: 'PO'`, `refId: po._id`; a
missing medication throws and aborts the whole unit. -/
def receiveLoop (po : PurchaseOrder) (meds : Nat → Option Medication)
    (note : Option String) (now : Int) :
    List Movement → List ReceiveItem → Nat → Except TxError (List Movement)
  | l, [], _ => Except.ok l
  | l, it :: rest, nid =>
    match meds it.medication with
    | none => Except.error (TxError.notFound "Medication not found")
    | some med =>
      let tx : Movement :=
        { id := nid, hospital := po.hospital, medication := it.medication,
          type := TxType.IN, qty := it.qty, uom := med.uom.getD "unit",
          lot := it.lot, expiryDate := it.expiryDate,
          unitCost := some ((it.unitCost.orElse fun _ => med.unitPrice).getD 0),
          reason := Reason.PURCHASE_RECEIPT, refType := RefType.PO,
          refId := some po.id, refCode := po.code, notes := note,
          createdAt := now }
      match saveTx l tx with
      | Except.error e => Except.error e
      | Except.ok l2 => receiveLoop po meds note now l2 rest (nid + 1)

/-- `receivePO` (`purchaseOrderController.js` lines 238-343): validate the
receipt, append the `IN` movements, then recompute the per-line received
totals and advance the order status — every line fully received marks the
order `RECEIVED` (stamping `receivedAt`), otherwise a `DRAFT` order
advances to `SENT`.  The completion recompute
(`getReceivedQtyByMedication`, line 290) runs its aggregate without the
session, so inside `session.withTransaction` it reads only the pre-receipt
committed ledger `l` — the receipt's own `IN` movements (committed as
`l2`) are invisible to it. -/
def receivePO (l : List Movement) (po : PurchaseOrder)
    (meds : Nat → Option Medication) (items : List ReceiveItem)
    (note : Option String) (now : Int) (nid : Nat) :
    Except TxError (List Movement × PurchaseOrder) :=
  if items.isEmpty then
    Except.error (TxError.validation "items es requerido y no puede estar vacío")
  else if po.status = POStatus.CANCELLED then
    Except.error (TxError.validation "Estado inválido para recepción")
  else
    match validateItems po items with
    | some e => Except.error e
    | none =>
      match receiveLoop po meds note now l items nid with
      | Except.error e => Except.error e
      | Except.ok l2 =>
        if allLinesReceived l po then
          Except.ok (l2, { po with status := POStatus.RECEIVED, receivedAt := some now })
        else if po.status = POStatus.DRAFT then
          Except.ok (l2, { po with status := POStatus.SENT })
        else Except.ok (l2, po)

/-! ### Example documents used by witnesses and counterexamples -/

/-- A medication with no policy (`policy?.safetyStock || 0` reads 0). -/
def exMed : Medication := { id := 5 }

/-- A medication with `safetyStock: 5`. -/
def exMedSafety5 : Medication :=
  { id := 5, policy := some { safetyStock := some 5 } }

/-- A medication with the spec's example policy and a preferred supplier. -/
def exMedReorder : Medication :=
  { id := 5,
    policy := some { reorderPoint := some 50, safetyStock := some 10,
                     avgMonthlyConsumption := some 30 },
    preferredSupplier := some 9 }

def exIn10 : Movement :=
  { id := 1, hospital := 1, medication := 5, type := TxType.IN, qty := 10 }

def exOut4 : Movement :=
  { id := 2, hospital := 1, medication := 5, type := TxType.OUT, qty := 4,
    createdAt := 1 }

def exScope : Scope := { hospitalId := 1, medicationId := 5 }

def exLedger : List Movement := [exIn10, exOut4]

/-- Write-off scenario: medication 10 has no safety floor, medication 20 has
`safetyStock: 100`. -/
def medA : Medication := { id := 10 }

def medB : Medication := { id := 20, policy := some { safetyStock := some 100 } }

def exMedsFun : Nat → Option Medication := fun n =>
  if n = 10 then some medA else if n = 20 then some medB else none

def woM1 : Movement :=
  { id := 1, hospital := 1, medication := 10, type := TxType.IN, qty := 5,
    lot := some "A", expiryDate := some 0 }

def woM2 : Movement :=
  { id := 2, hospital := 1, medication := 20, type := TxType.IN, qty := 5,
    lot := some "B", expiryDate := some 0 }

def woLedger : List Movement := [woM1, woM2]

/-- Purchase order with a single line: medication 5, ordered 10. -/
def exPO : PurchaseOrder :=
  { id := 77, hospital := 1, code := some "PO-1", status := POStatus.SENT,
    lines := [{ medication := 5, qty := 10 }] }

def exMedsPO : Nat → Option Medication := fun n =>
  if n = 5 then some exMed else none

/-! ### Shared helper lemmas -/

theorem foldl_add_eq (f : Movement → Int) :
    ∀ (ms : List Movement) (a : Int),
      ms.foldl (fun acc m => acc + f m) a = a + (ms.map f).sum := by
  intro ms
  induction ms with
  | nil => intro a; simp
  | cons m t ih =>
    intro a
    simp only [List.foldl_cons, List.map_cons, List.sum_cons, ih]
    ring

theorem sumSigned_eq (ms : List Movement) :
    sumSigned ms = (ms.map signedQtyExpr).sum := by
  simpa using foldl_add_eq signedQtyExpr ms 0

theorem getCurrentStock_eq (l : List Movement) (s : Scope) :
    getCurrentStock l s = ((l.filter (matchScope s)).map signedQtyExpr).sum := by
  simp [getCurrentStock, sumSigned_eq]

theorem validateTx_eq_none_iff (m : Movement) :
    validateTx m = none ↔
      0 < m.qty ∧ (m.type = TxType.ADJUST → m.adjustSign ≠ none) := by
  unfold validateTx
  by_cases h1 : 0 < m.qty
  · rw [if_neg (by simpa using h1)]
    by_cases h2 : m.type = TxType.ADJUST ∧ m.adjustSign = none
    · rw [if_pos h2]
      simp only [reduceCtorEq, false_iff]
      intro hc
      exact (hc.2 h2.1) h2.2
    · rw [if_neg h2]
      simp only [true_iff]
      refine ⟨h1, fun ht hs => h2 ⟨ht, hs⟩⟩
  · rw [if_pos (by simpa using h1)]
    simp only [reduceCtorEq, false_iff]
    intro hc
    exact h1 hc.1

theorem saveTx_ok_iff (l : List Movement) (m : Movement) (l2 : List Movement) :
    saveTx l m = Except.ok l2 ↔ validateTx m = none ∧ l2 = l ++ [m] := by
  unfold saveTx
  cases h : validateTx m with
  | none => simp [eq_comm]
  | some e => simp

theorem saveTx_error_validation (l : List Movement) (m : Movement)
    (e : TxError) (h : saveTx l m = Except.error e) :
    ∃ msg, e = TxError.validation msg := by
  unfold saveTx at h
  cases hv : validateTx m with
  | none => rw [hv] at h; cases h
  | some e2 =>
    rw [hv] at h
    unfold validateTx at hv
    split_ifs at hv with h1 h2
    · cases hv; cases h; exact ⟨_, rfl⟩
    · cases hv; cases h; exact ⟨_, rfl⟩

theorem assertSafetyStock_eq (med : Medication) (p : Int) :
    assertSafetyStock med p =
      if 0 < policySafetyStock med ∧ p < policySafetyStock med
      then some (TxError.safety p (policySafetyStock med)) else none := rfl

/-! ### C1 -/

/-- C1: for every scope, the stock projection equals the arithmetic sum of
the signed quantities of the movements in that scope (`IN` → +qty,
`OUT` → −qty, `ADJUST` signed by `adjustSign`, which is what
`signedQtyExpr` computes); the result is invariant under permuting the
commit order; a scope matching no movement — in particular the empty
ledger — projects to 0. -/
theorem c1_projection_is_signed_sum (l l2 : List Movement) (s : Scope)
    (hperm : l.Perm l2) :
    getCurrentStock l s = ((l.filter (matchScope s)).map signedQtyExpr).sum
      ∧ getCurrentStock l s = getCurrentStock l2 s
      ∧ ((∀ m ∈ l, matchScope s m = false) → getCurrentStock l s = 0)
      ∧ getCurrentStock ([] : List Movement) s = 0 := by
  refine ⟨getCurrentStock_eq l s, ?_, ?_, rfl⟩
  · rw [getCurrentStock_eq, getCurrentStock_eq]
    exact ((hperm.filter (matchScope s)).map signedQtyExpr).sum_eq
  · intro hall
    rw [getCurrentStock_eq]
    have : l.filter (matchScope s) = [] := by
      rw [List.filter_eq_nil_iff]
      intro m hm
      simp [hall m hm]
    simp [this]

/-- Witness for C1 at a concrete two-movement ledger and its swap. -/
theorem c1_projection_is_signed_sum_witness :
    getCurrentStock exLedger exScope
        = ((exLedger.filter (matchScope exScope)).map signedQtyExpr).sum
      ∧ getCurrentStock exLedger exScope = getCurrentStock [exOut4, exIn10] exScope
      ∧ ((∀ m ∈ exLedger, matchScope exScope m = false) →
          getCurrentStock exLedger exScope = 0)
      ∧ getCurrentStock ([] : List Movement) exScope = 0 :=
  c1_projection_is_signed_sum exLedger [exOut4, exIn10] exScope
    (List.Perm.swap exOut4 exIn10 [])

/-! ### C8 -/

/-- C8: an append fails with a `ValidationError` when the quantity is ≤ 0
or when the type is `ADJUST` and no sign is supplied (nothing is written —
`saveTx` returns no new ledger on failure), and consequently every
movement of a committed ledger has `qty > 0` and, when it is an `ADJUST`,
a present `adjustSign`. -/
theorem c8_ledger_invariant (l : List Movement) (m : Movement)
    (hbad : m.qty ≤ 0 ∨ (m.type = TxType.ADJUST ∧ m.adjustSign = none)) :
    (∃ msg, saveTx l m = Except.error (TxError.validation msg))
      ∧ (∀ l2, Committed l2 →
          ∀ mv ∈ l2, 0 < mv.qty ∧ (mv.type = TxType.ADJUST → mv.adjustSign ≠ none)) := by
  constructor
  · unfold saveTx validateTx
    by_cases h1 : 0 < m.qty
    · rcases hbad with hq | hadj
      · exact absurd h1 (by omega)
      · refine ⟨"adjustSign is required for ADJUST transactions", ?_⟩
        rw [if_neg (by simpa using h1), if_pos hadj]
    · exact ⟨"qty must be > 0", by rw [if_pos h1]⟩
  · intro l2 hc
    induction hc with
    | nil => intro mv hmv; cases hmv
    | step hprev hsave ih =>
      intro mv hmv
      rename_i lp lnext mstep
      rcases (saveTx_ok_iff lp mstep lnext).mp hsave with ⟨hval, hnext⟩
      subst hnext
      rcases List.mem_append.mp hmv with hin | hin
      · exact ih mv hin
      · rcases List.mem_singleton.mp hin with rfl
        exact (validateTx_eq_none_iff mv).mp hval

/-- Witness for C8: a zero-quantity movement is rejected on the empty
ledger, and the invariant holds of a concretely committed ledger. -/
theorem c8_ledger_invariant_witness :
    (∃ msg, saveTx []
        { id := 3, hospital := 1, medication := 5, type := TxType.OUT, qty := 0 }
        = Except.error (TxError.validation msg))
      ∧ (∀ l2, Committed l2 →
          ∀ mv ∈ l2, 0 < mv.qty ∧ (mv.type = TxType.ADJUST → mv.adjustSign ≠ none)) :=
  c8_ledger_invariant []
    { id := 3, hospital := 1, medication := 5, type := TxType.OUT, qty := 0 }
    (Or.inl (by decide))

/-! ### C2 -/

theorem createOut_safety_iff (l : List Movement) (med : Medication)
    (hosp : Nat) (qty : Int) (lot : Option String) (expiry : Option Int)
    (rsn : Reason) (rt : RefType) (rid : Option Nat) (rc : Option String)
    (now : Int) (nid : Nat) (hq : qty ≠ 0) :
    (isSafetyErr (createOut l med hosp qty lot expiry rsn rt rid rc now nid) = true
       ↔ 0 < policySafetyStock med ∧
         getCurrentStock l ⟨hosp, med.id, none, none⟩ - qty < policySafetyStock med)
      ∧ (0 < policySafetyStock med ∧
           getCurrentStock l ⟨hosp, med.id, none, none⟩ - qty < policySafetyStock med →
           createOut l med hosp qty lot expiry rsn rt rid rc now nid
             = Except.error (TxError.safety
                 (getCurrentStock l ⟨hosp, med.id, none, none⟩ - qty)
                 (policySafetyStock med))) := by
  unfold createOut
  rw [if_neg hq]
  dsimp only
  rw [assertSafetyStock_eq]
  by_cases hc : 0 < policySafetyStock med ∧
      getCurrentStock l ⟨hosp, med.id, none, none⟩ - qty < policySafetyStock med
  · rw [if_pos hc]
    simp [isSafetyErr, hc]
  · rw [if_neg hc]
    refine ⟨?_, fun h => absurd h hc⟩
    cases hs : saveTx l
        { id := nid, hospital := hosp, medication := med.id,
          type := TxType.OUT, qty := qty, uom := med.uom.getD "unit", lot := lot,
          expiryDate := expiry, reason := rsn, refType := rt,
          refId := rid, refCode := rc, createdAt := now } with
    | error e =>
      rcases saveTx_error_validation _ _ _ hs with ⟨msg, rfl⟩
      simp [hs, isSafetyErr, hc]
    | ok l2 => simp [hs, isSafetyErr, hc]

theorem createIn_no_safety (l : List Movement) (med : Medication) (hosp : Nat)
    (qty : Int) (lot : Option String) (expiry : Option Int) (uc : Option Int)
    (rsn : Reason) (rt : RefType) (rid : Option Nat) (rc : Option String)
    (now : Int) (nid : Nat) :
    isSafetyErr (createIn l med hosp qty lot expiry uc rsn rt rid rc now nid)
      = false := by
  unfold createIn
  by_cases hq : qty = 0
  · rw [if_pos hq]; rfl
  · rw [if_neg hq]
    dsimp only
    cases hs : saveTx l
        { id := nid, hospital := hosp, medication := med.id,
          type := TxType.IN, qty := qty, uom := med.uom.getD "unit", lot := lot,
          expiryDate := expiry,
          unitCost := some ((uc.orElse fun _ => med.unitPrice).getD 0),
          reason := rsn, refType := rt, refId := rid, refCode := rc,
          createdAt := now } with
    | error e =>
      rcases saveTx_error_validation _ _ _ hs with ⟨msg, rfl⟩
      simp [hs, isSafetyErr]
    | ok l2 => simp [hs, isSafetyErr]

theorem createAdjust_safety (l : List Movement) (med : Medication) (hosp : Nat)
    (qty : Int) (lot : Option String) (expiry : Option Int) (now : Int)
    (nid : Nat) (hq : qty ≠ 0) :
    isSafetyErr (createAdjust l med hosp qty (some AdjSign.IN) lot expiry now nid)
        = false
      ∧ (isSafetyErr (createAdjust l med hosp qty (some AdjSign.OUT) lot expiry now nid)
            = true
          ↔ 0 < policySafetyStock med ∧
            getCurrentStock l ⟨hosp, med.id, none, none⟩ - qty < policySafetyStock med)
      ∧ (0 < policySafetyStock med ∧
           getCurrentStock l ⟨hosp, med.id, none, none⟩ - qty < policySafetyStock med →
           createAdjust l med hosp qty (some AdjSign.OUT) lot expiry now nid
             = Except.error (TxError.safety
                 (getCurrentStock l ⟨hosp, med.id, none, none⟩ - qty)
                 (policySafetyStock med))) := by
  refine ⟨?_, ?_⟩
  · unfold createAdjust
    dsimp only
    rw [if_neg hq]
    simp only [reduceCtorEq, reduceIte]
    cases hs : saveTx l
        { id := nid, hospital := hosp, medication := med.id,
          type := TxType.ADJUST, adjustSign := some AdjSign.IN, qty := qty,
          uom := med.uom.getD "unit", lot := lot, expiryDate := expiry,
          reason := Reason.ADJUST_POS, refType := RefType.ADJ,
          createdAt := now } with
    | error e =>
      rcases saveTx_error_validation _ _ _ hs with ⟨msg, rfl⟩
      simp [hs, isSafetyErr]
    | ok l2 => simp [hs, isSafetyErr]
  · unfold createAdjust
    dsimp only
    rw [if_neg hq]
    simp only [reduceCtorEq, reduceIte, assertSafetyStock_eq]
    by_cases hc : 0 < policySafetyStock med ∧
        getCurrentStock l ⟨hosp, med.id, none, none⟩ - qty < policySafetyStock med
    · rw [if_pos hc]
      simp [isSafetyErr, hc]
    · rw [if_neg hc]
      refine ⟨?_, fun h => absurd h hc⟩
      cases hs : saveTx l
          { id := nid, hospital := hosp, medication := med.id,
            type := TxType.ADJUST, adjustSign := some AdjSign.OUT, qty := qty,
            uom := med.uom.getD "unit", lot := lot, expiryDate := expiry,
            reason := Reason.ADJUST_NEG, refType := RefType.ADJ,
            createdAt := now } with
      | error e =>
        rcases saveTx_error_validation _ _ _ hs with ⟨msg, rfl⟩
        simp [hs, isSafetyErr, hc]
      | ok l2 => simp [hs, isSafetyErr, hc]

/-- C2: a single-movement commit raises the safety-stock rejection iff the
operation decreases stock (`createOut`, or `createAdjust` with sign `OUT`),
the safety floor is positive, and the projected stock (current minus qty)
is strictly below the floor; the rejection is the `Except.error` outcome
(so nothing is appended) and carries the projected value and the floor;
`createIn` and `createAdjust` with sign `IN` never raise it. -/
theorem c2_safety_rejection (l : List Movement) (med : Medication) (hosp : Nat)
    (qty : Int) (lot : Option String) (expiry : Option Int) (uc : Option Int)
    (rsn : Reason) (rt : RefType) (rid : Option Nat) (rc : Option String)
    (now : Int) (nid : Nat) (hq : qty ≠ 0) :
    (isSafetyErr (createOut l med hosp qty lot expiry rsn rt rid rc now nid) = true
       ↔ 0 < policySafetyStock med ∧
         getCurrentStock l ⟨hosp, med.id, none, none⟩ - qty < policySafetyStock med)
      ∧ (0 < policySafetyStock med ∧
           getCurrentStock l ⟨hosp, med.id, none, none⟩ - qty < policySafetyStock med →
           createOut l med hosp qty lot expiry rsn rt rid rc now nid
             = Except.error (TxError.safety
                 (getCurrentStock l ⟨hosp, med.id, none, none⟩ - qty)
                 (policySafetyStock med)))
      ∧ isSafetyErr (createIn l med hosp qty lot expiry uc rsn rt rid rc now nid)
          = false
      ∧ isSafetyErr (createAdjust l med hosp qty (some AdjSign.IN) lot expiry now nid)
          = false
      ∧ (isSafetyErr (createAdjust l med hosp qty (some AdjSign.OUT) lot expiry now nid)
            = true
          ↔ 0 < policySafetyStock med ∧
            getCurrentStock l ⟨hosp, med.id, none, none⟩ - qty < policySafetyStock med)
      ∧ (0 < policySafetyStock med ∧
           getCurrentStock l ⟨hosp, med.id, none, none⟩ - qty < policySafetyStock med →
           createAdjust l med hosp qty (some AdjSign.OUT) lot expiry now nid
             = Except.error (TxError.safety
                 (getCurrentStock l ⟨hosp, med.id, none, none⟩ - qty)
                 (policySafetyStock med))) := by
  obtain ⟨h1, h2⟩ := createOut_safety_iff l med hosp qty lot expiry rsn rt rid rc now nid hq
  obtain ⟨h3, h4, h5⟩ := createAdjust_safety l med hosp qty lot expiry now nid hq
  exact ⟨h1, h2, createIn_no_safety l med hosp qty lot expiry uc rsn rt rid rc now nid,
    h3, h4, h5⟩

/-- Witness for C2: ledger with stock 6, floor 5, decreasing quantity 4
(projected 2 breaches the floor). -/
theorem c2_safety_rejection_witness :
    (isSafetyErr (createOut exLedger exMedSafety5 1 4 none none Reason.CONSUMPTION
          RefType.OTHER none none 2 3) = true
       ↔ 0 < policySafetyStock exMedSafety5 ∧
         getCurrentStock exLedger ⟨1, exMedSafety5.id, none, none⟩ - 4
           < policySafetyStock exMedSafety5)
      ∧ (0 < policySafetyStock exMedSafety5 ∧
           getCurrentStock exLedger ⟨1, exMedSafety5.id, none, none⟩ - 4
             < policySafetyStock exMedSafety5 →
           createOut exLedger exMedSafety5 1 4 none none Reason.CONSUMPTION
               RefType.OTHER none none 2 3
             = Except.error (TxError.safety
                 (getCurrentStock exLedger ⟨1, exMedSafety5.id, none, none⟩ - 4)
                 (policySafetyStock exMedSafety5)))
      ∧ isSafetyErr (createIn exLedger exMedSafety5 1 4 none none none
            Reason.CONSUMPTION RefType.OTHER none none 2 3) = false
      ∧ isSafetyErr (createAdjust exLedger exMedSafety5 1 4 (some AdjSign.IN)
            none none 2 3) = false
      ∧ (isSafetyErr (createAdjust exLedger exMedSafety5 1 4 (some AdjSign.OUT)
              none none 2 3) = true
          ↔ 0 < policySafetyStock exMedSafety5 ∧
            getCurrentStock exLedger ⟨1, exMedSafety5.id, none, none⟩ - 4
              < policySafetyStock exMedSafety5)
      ∧ (0 < policySafetyStock exMedSafety5 ∧
           getCurrentStock exLedger ⟨1, exMedSafety5.id, none, none⟩ - 4
             < policySafetyStock exMedSafety5 →
           createAdjust exLedger exMedSafety5 1 4 (some AdjSign.OUT) none none 2 3
             = Except.error (TxError.safety
                 (getCurrentStock exLedger ⟨1, exMedSafety5.id, none, none⟩ - 4)
                 (policySafetyStock exMedSafety5))) :=
  c2_safety_rejection exLedger exMedSafety5 1 4 none none none Reason.CONSUMPTION
    RefType.OTHER none none 2 3 (by decide)

/-! ### Success-shape lemmas -/

theorem createOut_ok (l : List Movement) (med : Medication) (hosp : Nat)
    (qty : Int) (lot : Option String) (expiry : Option Int) (rsn : Reason)
    (rt : RefType) (rid : Option Nat) (rc : Option String) (now : Int)
    (nid : Nat) (r : StockSnap)
    (h : createOut l med hosp qty lot expiry rsn rt rid rc now nid = Except.ok r) :
    r.before = getCurrentStock l ⟨hosp, med.id, none, none⟩
      ∧ r.after = getCurrentStock r.ledger ⟨hosp, med.id, none, none⟩
      ∧ r.projected = r.before - qty
      ∧ ∃ tx : Movement, r.ledger = l ++ [tx] ∧ tx.type = TxType.OUT
          ∧ tx.qty = qty ∧ tx.hospital = hosp ∧ tx.medication = med.id
          ∧ tx.lot = lot ∧ tx.expiryDate = expiry ∧ tx.reason = rsn
          ∧ tx.id = nid := by
  unfold createOut at h
  by_cases hq : qty = 0
  · rw [if_pos hq] at h; exact Except.noConfusion h
  · rw [if_neg hq] at h
    dsimp only at h
    rw [assertSafetyStock_eq] at h
    by_cases hc : 0 < policySafetyStock med ∧
        getCurrentStock l ⟨hosp, med.id, none, none⟩ - qty < policySafetyStock med
    · rw [if_pos hc] at h; exact Except.noConfusion h
    · rw [if_neg hc] at h
      cases hs : saveTx l
          { id := nid, hospital := hosp, medication := med.id,
            type := TxType.OUT, qty := qty, uom := med.uom.getD "unit", lot := lot,
            expiryDate := expiry, reason := rsn, refType := rt,
            refId := rid, refCode := rc, createdAt := now } with
      | error e => rw [hs] at h; exact Except.noConfusion h
      | ok l2 =>
        rw [hs] at h
        rcases (saveTx_ok_iff _ _ _).mp hs with ⟨hv, hl2⟩
        injection h with h2
        subst h2
        subst hl2
        exact ⟨rfl, rfl, rfl, _, rfl, rfl, rfl, rfl, rfl, rfl, rfl, rfl, rfl⟩

theorem createAdjustOut_ok (l : List Movement) (med : Medication) (hosp : Nat)
    (qty : Int) (lot : Option String) (expiry : Option Int) (now : Int)
    (nid : Nat) (r : StockSnap)
    (h : createAdjust l med hosp qty (some AdjSign.OUT) lot expiry now nid
        = Except.ok r) :
    r.before = getCurrentStock l ⟨hosp, med.id, none, none⟩
      ∧ r.after = getCurrentStock r.ledger ⟨hosp, med.id, none, none⟩
      ∧ r.projected = r.before - qty
      ∧ ∃ tx : Movement, r.ledger = l ++ [tx] ∧ tx.type = TxType.ADJUST
          ∧ tx.adjustSign = some AdjSign.OUT ∧ tx.qty = qty
          ∧ tx.hospital = hosp ∧ tx.medication = med.id ∧ tx.lot = lot
          ∧ tx.expiryDate = expiry ∧ tx.reason = Reason.ADJUST_NEG := by
  unfold createAdjust at h
  dsimp only at h
  by_cases hq : qty = 0
  · rw [if_pos hq] at h; exact Except.noConfusion h
  · rw [if_neg hq] at h
    simp only [reduceCtorEq, reduceIte, assertSafetyStock_eq] at h
    by_cases hc : 0 < policySafetyStock med ∧
        getCurrentStock l ⟨hosp, med.id, none, none⟩ - qty < policySafetyStock med
    · rw [if_pos hc] at h; exact Except.noConfusion h
    · rw [if_neg hc] at h
      cases hs : saveTx l
          { id := nid, hospital := hosp, medication := med.id,
            type := TxType.ADJUST, adjustSign := some AdjSign.OUT, qty := qty,
            uom := med.uom.getD "unit", lot := lot, expiryDate := expiry,
            reason := Reason.ADJUST_NEG, refType := RefType.ADJ,
            createdAt := now } with
      | error e => rw [hs] at h; exact Except.noConfusion h
      | ok l2 =>
        rw [hs] at h
        rcases (saveTx_ok_iff _ _ _).mp hs with ⟨hv, hl2⟩
        injection h with h2
        subst h2
        subst hl2
        exact ⟨rfl, rfl, rfl, _, rfl, rfl, rfl, rfl, rfl, rfl, rfl, rfl, rfl⟩

theorem transfer_ok (l : List Movement) (med : Medication) (fromH toH : Nat)
    (qty : Int) (lot : Option String) (expiry : Option Int) (rc : Option String)
    (now : Int) (nid : Nat) (r : TransferResult)
    (h : transferBetweenHospitals l med fromH toH qty lot expiry rc now nid
        = Except.ok r) :
    r.fromBefore = getCurrentStock l ⟨fromH, med.id, none, none⟩
      ∧ ∃ mo mi : Movement, r.ledger = l ++ [mo, mi]
          ∧ mo.id = nid ∧ mo.hospital = fromH ∧ mo.medication = med.id
          ∧ mo.type = TxType.OUT ∧ mo.qty = qty ∧ mo.reason = Reason.TRANSFER_OUT
          ∧ mo.refType = RefType.XFER ∧ mo.refId = none ∧ mo.lot = lot
          ∧ mi.id = nid + 1 ∧ mi.hospital = toH ∧ mi.medication = med.id
          ∧ mi.type = TxType.IN ∧ mi.qty = qty ∧ mi.reason = Reason.TRANSFER_IN
          ∧ mi.refType = RefType.XFER ∧ mi.refId = some mo.id := by
  unfold transferBetweenHospitals at h
  by_cases hq : qty = 0
  · rw [if_pos hq] at h; exact Except.noConfusion h
  · rw [if_neg hq] at h
    by_cases hne : fromH = toH
    · rw [if_pos hne] at h; exact Except.noConfusion h
    · rw [if_neg hne] at h
      dsimp only at h
      rw [assertSafetyStock_eq] at h
      by_cases hc : 0 < policySafetyStock med ∧
          getCurrentStock l ⟨fromH, med.id, none, none⟩ - qty < policySafetyStock med
      · rw [if_pos hc] at h; exact Except.noConfusion h
      · rw [if_neg hc] at h
        cases hs1 : saveTx l
            { id := nid, hospital := fromH, medication := med.id,
              type := TxType.OUT, qty := qty, uom := med.uom.getD "unit",
              lot := lot, expiryDate := expiry, reason := Reason.TRANSFER_OUT,
              refType := RefType.XFER, refCode := rc, createdAt := now } with
        | error e => rw [hs1] at h; exact Except.noConfusion h
        | ok l1 =>
          rw [hs1] at h
          dsimp only at h
          rcases (saveTx_ok_iff _ _ _).mp hs1 with ⟨hv1, hl1⟩
          cases hs2 : saveTx l1
              { id := nid + 1, hospital := toH, medication := med.id,
                type := TxType.IN, qty := qty, uom := med.uom.getD "unit",
                lot := lot, expiryDate := expiry, reason := Reason.TRANSFER_IN,
                refType := RefType.XFER, refId := some nid, refCode := rc,
                createdAt := now } with
          | error e => rw [hs2] at h; exact Except.noConfusion h
          | ok l2 =>
            rw [hs2] at h
            rcases (saveTx_ok_iff _ _ _).mp hs2 with ⟨hv2, hl2⟩
            injection h with h2
            subst h2
            subst hl2
            subst hl1
            refine ⟨rfl,
              { id := nid, hospital := fromH, medication := med.id,
                type := TxType.OUT, qty := qty, uom := med.uom.getD "unit",
                lot := lot, expiryDate := expiry, reason := Reason.TRANSFER_OUT,
                refType := RefType.XFER, refCode := rc, createdAt := now },
              { id := nid + 1, hospital := toH, medication := med.id,
                type := TxType.IN, qty := qty, uom := med.uom.getD "unit",
                lot := lot, expiryDate := expiry, reason := Reason.TRANSFER_IN,
                refType := RefType.XFER, refId := some nid, refCode := rc,
                createdAt := now },
              ?_, rfl, rfl, rfl, rfl, rfl, rfl, rfl, rfl, rfl,
              rfl, rfl, rfl, rfl, rfl, rfl, rfl, rfl⟩
            simp

theorem transfer_same_site (l : List Movement) (med : Medication) (fromH : Nat)
    (qty : Int) (lot : Option String) (expiry : Option Int) (rc : Option String)
    (now : Int) (nid : Nat) (hq : qty ≠ 0) :
    transferBetweenHospitals l med fromH fromH qty lot expiry rc now nid
      = Except.error
          (TxError.validation "fromHospital y toHospital no pueden ser iguales") := by
  unfold transferBetweenHospitals
  rw [if_neg hq, if_pos rfl]

theorem transfer_safety_iff (l : List Movement) (med : Medication)
    (fromH toH : Nat) (qty : Int) (lot : Option String) (expiry : Option Int)
    (rc : Option String) (now : Int) (nid : Nat) (hq : qty ≠ 0)
    (hne : fromH ≠ toH) :
    isSafetyErr (transferBetweenHospitals l med fromH toH qty lot expiry rc now nid)
        = true
      ↔ 0 < policySafetyStock med ∧
        getCurrentStock l ⟨fromH, med.id, none, none⟩ - qty
          < policySafetyStock med := by
  unfold transferBetweenHospitals
  rw [if_neg hq, if_neg hne]
  dsimp only
  rw [assertSafetyStock_eq]
  by_cases hc : 0 < policySafetyStock med ∧
      getCurrentStock l ⟨fromH, med.id, none, none⟩ - qty < policySafetyStock med
  · rw [if_pos hc]
    simp [isSafetyErr, hc]
  · rw [if_neg hc]
    cases hs1 : saveTx l
        { id := nid, hospital := fromH, medication := med.id,
          type := TxType.OUT, qty := qty, uom := med.uom.getD "unit",
          lot := lot, expiryDate := expiry, reason := Reason.TRANSFER_OUT,
          refType := RefType.XFER, refCode := rc, createdAt := now } with
    | error e =>
      rcases saveTx_error_validation _ _ _ hs1 with ⟨msg, rfl⟩
      simp [hs1, isSafetyErr, hc]
    | ok l1 =>
      cases hs2 : saveTx l1
          { id := nid + 1, hospital := toH, medication := med.id,
            type := TxType.IN, qty := qty, uom := med.uom.getD "unit",
            lot := lot, expiryDate := expiry, reason := Reason.TRANSFER_IN,
            refType := RefType.XFER, refId := some nid, refCode := rc,
            createdAt := now } with
      | error e =>
        rcases saveTx_error_validation _ _ _ hs2 with ⟨msg, rfl⟩
        simp [hs1, hs2, isSafetyErr, hc]
      | ok l2 => simp [hs1, hs2, isSafetyErr, hc]

/-! ### C9 -/

theorem createOut_batch_indep (l : List Movement) (med : Medication)
    (hosp : Nat) (qty : Int) (lot lot2 : Option String)
    (expiry expiry2 : Option Int) (rsn : Reason) (rt : RefType)
    (rid : Option Nat) (rc : Option String) (now : Int) (nid : Nat) :
    isSafetyErr (createOut l med hosp qty lot expiry rsn rt rid rc now nid)
      = isSafetyErr (createOut l med hosp qty lot2 expiry2 rsn rt rid rc now nid) := by
  by_cases hq : qty = 0
  · unfold createOut
    rw [if_pos hq, if_pos hq]
  · exact Bool.eq_iff_iff.mpr
      ((createOut_safety_iff l med hosp qty lot expiry rsn rt rid rc now nid hq).1.trans
        (createOut_safety_iff l med hosp qty lot2 expiry2 rsn rt rid rc now nid hq).1.symm)

theorem createAdjustOut_batch_indep (l : List Movement) (med : Medication)
    (hosp : Nat) (qty : Int) (lot lot2 : Option String)
    (expiry expiry2 : Option Int) (now : Int) (nid : Nat) :
    isSafetyErr (createAdjust l med hosp qty (some AdjSign.OUT) lot expiry now nid)
      = isSafetyErr (createAdjust l med hosp qty (some AdjSign.OUT) lot2 expiry2 now nid) := by
  by_cases hq : qty = 0
  · unfold createAdjust
    dsimp only
    rw [if_pos hq, if_pos hq]
  · exact Bool.eq_iff_iff.mpr
      ((createAdjust_safety l med hosp qty lot expiry now nid hq).2.1.trans
        (createAdjust_safety l med hosp qty lot2 expiry2 now nid hq).2.1.symm)

theorem transfer_batch_indep (l : List Movement) (med : Medication)
    (fromH toH : Nat) (qty : Int) (lot lot2 : Option String)
    (expiry expiry2 : Option Int) (rc : Option String) (now : Int) (nid : Nat) :
    isSafetyErr (transferBetweenHospitals l med fromH toH qty lot expiry rc now nid)
      = isSafetyErr (transferBetweenHospitals l med fromH toH qty lot2 expiry2 rc now nid) := by
  by_cases hq : qty = 0
  · unfold transferBetweenHospitals
    rw [if_pos hq, if_pos hq]
  · by_cases hne : fromH = toH
    · unfold transferBetweenHospitals
      rw [if_neg hq, if_neg hq, if_pos hne, if_pos hne]
    · exact Bool.eq_iff_iff.mpr
        ((transfer_safety_iff l med fromH toH qty lot expiry rc now nid hq hne).trans
          (transfer_safety_iff l med fromH toH qty lot2 expiry2 rc now nid hq hne).symm)

/-- C9: for every stock-decreasing operation that carries a batch label or
expiry date (`createOut`, decreasing `createAdjust`, the outgoing transfer
leg), the safety-guard decision does not depend on the batch fields, and
the `before`/`after` snapshots of a successful call are projections of the
aggregate (hospital, medication) scope with no batch narrowing. -/
theorem c9_guard_over_aggregate (l : List Movement) (med : Medication)
    (hosp fromH toH : Nat) (qty : Int) (lot lot2 : Option String)
    (expiry expiry2 : Option Int) (rsn : Reason) (rt : RefType)
    (rid : Option Nat) (rc : Option String) (now : Int) (nid : Nat) :
    (isSafetyErr (createOut l med hosp qty lot expiry rsn rt rid rc now nid)
       = isSafetyErr (createOut l med hosp qty lot2 expiry2 rsn rt rid rc now nid))
      ∧ (∀ r, createOut l med hosp qty lot expiry rsn rt rid rc now nid
            = Except.ok r →
          r.before = getCurrentStock l ⟨hosp, med.id, none, none⟩
            ∧ r.after = getCurrentStock r.ledger ⟨hosp, med.id, none, none⟩)
      ∧ (isSafetyErr (createAdjust l med hosp qty (some AdjSign.OUT) lot expiry now nid)
         = isSafetyErr (createAdjust l med hosp qty (some AdjSign.OUT) lot2 expiry2 now nid))
      ∧ (∀ r, createAdjust l med hosp qty (some AdjSign.OUT) lot expiry now nid
            = Except.ok r →
          r.before = getCurrentStock l ⟨hosp, med.id, none, none⟩
            ∧ r.after = getCurrentStock r.ledger ⟨hosp, med.id, none, none⟩)
      ∧ (isSafetyErr (transferBetweenHospitals l med fromH toH qty lot expiry rc now nid)
         = isSafetyErr (transferBetweenHospitals l med fromH toH qty lot2 expiry2 rc now nid))
      ∧ (∀ r, transferBetweenHospitals l med fromH toH qty lot expiry rc now nid
            = Except.ok r →
          r.fromBefore = getCurrentStock l ⟨fromH, med.id, none, none⟩) := by
  refine ⟨createOut_batch_indep l med hosp qty lot lot2 expiry expiry2 rsn rt rid rc now nid,
    ?_,
    createAdjustOut_batch_indep l med hosp qty lot lot2 expiry expiry2 now nid,
    ?_,
    transfer_batch_indep l med fromH toH qty lot lot2 expiry expiry2 rc now nid,
    ?_⟩
  · intro r hr
    obtain ⟨h1, h2, _⟩ := createOut_ok l med hosp qty lot expiry rsn rt rid rc now nid r hr
    exact ⟨h1, h2⟩
  · intro r hr
    obtain ⟨h1, h2, _⟩ := createAdjustOut_ok l med hosp qty lot expiry now nid r hr
    exact ⟨h1, h2⟩
  · intro r hr
    exact (transfer_ok l med fromH toH qty lot expiry rc now nid r hr).1

/-- Witness for C9: a batch-tagged `OUT` of 4 against a ledger whose lot
"L1" holds 10 but whose aggregate stock is 6. -/
theorem c9_guard_over_aggregate_witness :
    (isSafetyErr (createOut exLedger exMedSafety5 1 4 (some "L1") none
          Reason.CONSUMPTION RefType.OTHER none none 2 3)
       = isSafetyErr (createOut exLedger exMedSafety5 1 4 none none
          Reason.CONSUMPTION RefType.OTHER none none 2 3))
      ∧ (∀ r, createOut exLedger exMedSafety5 1 4 (some "L1") none
            Reason.CONSUMPTION RefType.OTHER none none 2 3 = Except.ok r →
          r.before = getCurrentStock exLedger ⟨1, exMedSafety5.id, none, none⟩
            ∧ r.after = getCurrentStock r.ledger ⟨1, exMedSafety5.id, none, none⟩)
      ∧ (isSafetyErr (createAdjust exLedger exMedSafety5 1 4 (some AdjSign.OUT)
            (some "L1") none 2 3)
         = isSafetyErr (createAdjust exLedger exMedSafety5 1 4 (some AdjSign.OUT)
            none none 2 3))
      ∧ (∀ r, createAdjust exLedger exMedSafety5 1 4 (some AdjSign.OUT)
            (some "L1") none 2 3 = Except.ok r →
          r.before = getCurrentStock exLedger ⟨1, exMedSafety5.id, none, none⟩
            ∧ r.after = getCurrentStock r.ledger ⟨1, exMedSafety5.id, none, none⟩)
      ∧ (isSafetyErr (transferBetweenHospitals exLedger exMedSafety5 1 2 4
            (some "L1") none none 2 3)
         = isSafetyErr (transferBetweenHospitals exLedger exMedSafety5 1 2 4
            none none none 2 3))
      ∧ (∀ r, transferBetweenHospitals exLedger exMedSafety5 1 2 4
            (some "L1") none none 2 3 = Except.ok r →
          r.fromBefore = getCurrentStock exLedger ⟨1, exMedSafety5.id, none, none⟩) :=
  c9_guard_over_aggregate exLedger exMedSafety5 1 1 2 4 (some "L1") none none none
    Reason.CONSUMPTION RefType.OTHER none none 2 3

/-! ### C3 -/

/-- Counterexample to C3 as stated: in a concrete successful transfer the
two appended legs carry `refId` values `[none, some 10]` — the `IN` leg
references the `OUT` leg's id 10, but the `OUT` leg references nothing
(in particular not the `IN` leg's id 11), so the legs do not cross-reference
each other's id. -/
theorem c3_crossref_counterexample :
    (transferLegs exLedger
        (transferBetweenHospitals exLedger exMed 1 2 5 none none none 7 10)).map
        Movement.refId = [none, some 10]
      ∧ (transferLegs exLedger
          (transferBetweenHospitals exLedger exMed 1 2 5 none none none 7 10)).map
          Movement.refId ≠ [some 11, some 10] := by
  decide

/-- C3 (amended): a transfer either appends exactly two new movements — an
`OUT` at the source with reason `TRANSFER_OUT` and an `IN` at the
destination with reason `TRANSFER_IN`, both of quantity q, the incoming leg
referencing the outgoing leg's id (the outgoing leg carries no back
reference) — or appends zero (an error produces no new ledger); a transfer
with equal endpoints is rejected with a validation error; only the
outgoing leg at the source is checked against the safety floor. -/
theorem c3_transfer_two_or_zero (l : List Movement) (med : Medication)
    (fromH toH : Nat) (qty : Int) (lot : Option String) (expiry : Option Int)
    (rc : Option String) (now : Int) (nid : Nat) (hq : qty ≠ 0) :
    (fromH = toH →
       transferBetweenHospitals l med fromH toH qty lot expiry rc now nid
         = Except.error
             (TxError.validation "fromHospital y toHospital no pueden ser iguales"))
      ∧ (∀ r, transferBetweenHospitals l med fromH toH qty lot expiry rc now nid
            = Except.ok r →
          ∃ mo mi : Movement, r.ledger = l ++ [mo, mi]
            ∧ transferLegs l (Except.ok r) = [mo, mi]
            ∧ mo.type = TxType.OUT ∧ mo.hospital = fromH
            ∧ mo.reason = Reason.TRANSFER_OUT ∧ mo.qty = qty ∧ mo.refId = none
            ∧ mi.type = TxType.IN ∧ mi.hospital = toH
            ∧ mi.reason = Reason.TRANSFER_IN ∧ mi.qty = qty
            ∧ mi.refId = some mo.id)
      ∧ (∀ e, transferBetweenHospitals l med fromH toH qty lot expiry rc now nid
            = Except.error e →
          transferLegs l
            (transferBetweenHospitals l med fromH toH qty lot expiry rc now nid)
            = [])
      ∧ (fromH ≠ toH →
          (isSafetyErr
              (transferBetweenHospitals l med fromH toH qty lot expiry rc now nid)
              = true
            ↔ 0 < policySafetyStock med ∧
              getCurrentStock l ⟨fromH, med.id, none, none⟩ - qty
                < policySafetyStock med)) := by
  refine ⟨?_, ?_, ?_, ?_⟩
  · intro he
    subst he
    exact transfer_same_site l med fromH qty lot expiry rc now nid hq
  · intro r hr
    obtain ⟨_, mo, mi, hledger, hmoid, hmoh, hmom, hmot, hmoq, hmor, hmorft,
        hmorid, hmolot, hmiid, hmih, hmim, hmit, hmiq, hmir, hmirft, hmirid⟩ :=
      transfer_ok l med fromH toH qty lot expiry rc now nid r hr
    refine ⟨mo, mi, hledger, ?_, hmot, hmoh, hmor, hmoq, hmorid, hmit, hmih,
      hmir, hmiq, hmirid⟩
    unfold transferLegs
    dsimp only
    rw [hledger]
    exact List.drop_left l [mo, mi]
  · intro e he
    unfold transferLegs
    rw [he]
  · intro hne
    exact transfer_safety_iff l med fromH toH qty lot expiry rc now nid hq hne

/-- Witness for C3 (amended) at the concrete transfer of 5 units from
hospital 1 to hospital 2. -/
theorem c3_transfer_two_or_zero_witness :
    ((1 : Nat) = 2 →
       transferBetweenHospitals exLedger exMed 1 2 5 none none none 7 10
         = Except.error
             (TxError.validation "fromHospital y toHospital no pueden ser iguales"))
      ∧ (∀ r, transferBetweenHospitals exLedger exMed 1 2 5 none none none 7 10
            = Except.ok r →
          ∃ mo mi : Movement, r.ledger = exLedger ++ [mo, mi]
            ∧ transferLegs exLedger (Except.ok r) = [mo, mi]
            ∧ mo.type = TxType.OUT ∧ mo.hospital = 1
            ∧ mo.reason = Reason.TRANSFER_OUT ∧ mo.qty = 5 ∧ mo.refId = none
            ∧ mi.type = TxType.IN ∧ mi.hospital = 2
            ∧ mi.reason = Reason.TRANSFER_IN ∧ mi.qty = 5
            ∧ mi.refId = some mo.id)
      ∧ (∀ e, transferBetweenHospitals exLedger exMed 1 2 5 none none none 7 10
            = Except.error e →
          transferLegs exLedger
            (transferBetweenHospitals exLedger exMed 1 2 5 none none none 7 10)
            = [])
      ∧ ((1 : Nat) ≠ 2 →
          (isSafetyErr
              (transferBetweenHospitals exLedger exMed 1 2 5 none none none 7 10)
              = true
            ↔ 0 < policySafetyStock exMed ∧
              getCurrentStock exLedger ⟨1, exMed.id, none, none⟩ - 5
                < policySafetyStock exMed)) :=
  c3_transfer_two_or_zero exLedger exMed 1 2 5 none none none 7 10 (by decide)

/-! ### C10 -/

/-- Counterexample to C10 as stated: with stock 10 and `safetyStock: 5`,
`action: 'set', qty: 2` computes the non-zero delta −8, yet the operation
appends no `ADJUST` movement — it is rejected by the safety guard
(projected 2, floor 5). -/
theorem c10_set_counterexample :
    updateStock [exIn10] exMedSafety5 1 StockAction.set 2 none none none 7 50
        = Except.error (TxError.safety 2 5)
      ∧ (2 : Int) - getCurrentStock [exIn10] ⟨1, exMedSafety5.id, none, none⟩ ≠ 0 :=
  ⟨rfl, by decide⟩

/-- C10 (amended): `updateStock` with action `'set'` and a requested
quantity equal to the current (batch-narrowed) projection computes delta 0,
appends nothing and answers with the current stock; when the delta is
non-zero and the operation succeeds (i.e. the safety guard does not reject
it), it appends exactly one `ADJUST` movement whose quantity is `|delta|`
and whose sign is `IN` for a positive and `OUT` for a negative delta. -/
theorem c10_update_set (l : List Movement) (med : Medication) (hosp : Nat)
    (qty : Int) (lot : Option String) (expiry : Option Int) (uc : Option Int)
    (now : Int) (nid : Nat) :
    (qty - getCurrentStock l ⟨hosp, med.id, lot, expiry⟩ = 0 →
       updateStock l med hosp StockAction.set qty lot expiry uc now nid
         = Except.ok ⟨l, getCurrentStock l ⟨hosp, med.id, lot, expiry⟩,
             getCurrentStock l ⟨hosp, med.id, lot, expiry⟩⟩)
      ∧ (∀ r, updateStock l med hosp StockAction.set qty lot expiry uc now nid
            = Except.ok r →
          qty - getCurrentStock l ⟨hosp, med.id, lot, expiry⟩ ≠ 0 →
          ∃ tx : Movement, r.ledger = l ++ [tx] ∧ tx.type = TxType.ADJUST
            ∧ tx.qty = |qty - getCurrentStock l ⟨hosp, med.id, lot, expiry⟩|
            ∧ tx.adjustSign
                = some (if 0 < qty - getCurrentStock l ⟨hosp, med.id, lot, expiry⟩
                    then AdjSign.IN else AdjSign.OUT)) := by
  constructor
  · intro hd
    unfold updateStock
    dsimp only
    rw [if_pos hd]
  · intro r hr hd
    unfold updateStock at hr
    dsimp only at hr
    rw [if_neg hd] at hr
    by_cases hc : 0 < policySafetyStock med ∧
        getCurrentStock l ⟨hosp, med.id, lot, expiry⟩
            + (qty - getCurrentStock l ⟨hosp, med.id, lot, expiry⟩)
          < policySafetyStock med
    · rw [if_pos hc] at hr
      exact Except.noConfusion hr
    · rw [if_neg hc] at hr
      cases hs : saveTx l
          { id := nid, hospital := hosp, medication := med.id,
            type := TxType.ADJUST,
            adjustSign := some (if 0 < qty - getCurrentStock l ⟨hosp, med.id, lot, expiry⟩
                then AdjSign.IN else AdjSign.OUT),
            qty := |qty - getCurrentStock l ⟨hosp, med.id, lot, expiry⟩|,
            uom := med.uom.getD "unit", lot := lot, expiryDate := expiry,
            unitCost := some ((uc.orElse fun _ => med.unitPrice).getD 0),
            reason := if 0 < qty - getCurrentStock l ⟨hosp, med.id, lot, expiry⟩
                then Reason.ADJUST_POS else Reason.ADJUST_NEG,
            refType := RefType.ADJ, createdAt := now } with
      | error e => rw [hs] at hr; exact Except.noConfusion hr
      | ok l2 =>
        rw [hs] at hr
        rcases (saveTx_ok_iff _ _ _).mp hs with ⟨hv, hl2⟩
        injection hr with h2
        subst h2
        subst hl2
        exact ⟨_, rfl, rfl, rfl, rfl⟩

/-- Witness for C10 (amended): setting the stock to its current value 10
is a no-op, and a successful non-zero set appends the single `ADJUST`. -/
theorem c10_update_set_witness :
    ((10 : Int) - getCurrentStock [exIn10] ⟨1, exMedSafety5.id, none, none⟩ = 0 →
       updateStock [exIn10] exMedSafety5 1 StockAction.set 10 none none none 7 50
         = Except.ok ⟨[exIn10], getCurrentStock [exIn10] ⟨1, exMedSafety5.id, none, none⟩,
             getCurrentStock [exIn10] ⟨1, exMedSafety5.id, none, none⟩⟩)
      ∧ (∀ r, updateStock [exIn10] exMedSafety5 1 StockAction.set 10 none none none 7 50
            = Except.ok r →
          (10 : Int) - getCurrentStock [exIn10] ⟨1, exMedSafety5.id, none, none⟩ ≠ 0 →
          ∃ tx : Movement, r.ledger = [exIn10] ++ [tx] ∧ tx.type = TxType.ADJUST
            ∧ tx.qty = |(10 : Int) - getCurrentStock [exIn10] ⟨1, exMedSafety5.id, none, none⟩|
            ∧ tx.adjustSign
                = some (if 0 < (10 : Int) - getCurrentStock [exIn10] ⟨1, exMedSafety5.id, none, none⟩
                    then AdjSign.IN else AdjSign.OUT)) :=
  c10_update_set [exIn10] exMedSafety5 1 10 none none none 7 50

/-! ### C7 -/

/-- C7: the reorder evaluator triggers iff the projected stock is ≤ the
reorder point; when the item's preferred supplier is designated and
resolves, on trigger the proposed quantity is
`max 0 (safetyStock + avgMonthlyConsumption − currentStock)` and the draft
order is created iff the evaluator triggered and that quantity is strictly
positive (a non-positive quantity suppresses the proposal while the
low-stock event still fires); the evaluator is a pure function of the
ledger, so two successive evaluations with no intervening writes agree. -/
theorem c7_reorder_trigger (l : List Movement) (hosp : Nat) (med : Medication)
    (supplierExists : Nat → Bool) (sid : Nat)
    (hsup : med.preferredSupplier = some sid)
    (hfound : supplierExists sid = true) :
    ((maybeTriggerReorder l hosp med supplierExists).created = true
       ↔ getCurrentStock l ⟨hosp, med.id, none, none⟩ ≤ policyReorderPoint med)
      ∧ ((maybeTriggerReorder l hosp med supplierExists).created = true →
          (maybeTriggerReorder l hosp med supplierExists).proposedQty
            = some (max 0 (policySafetyStock med + policyAvgMonthly med
                - getCurrentStock l ⟨hosp, med.id, none, none⟩)))
      ∧ ((maybeTriggerReorder l hosp med supplierExists).poCreated = true
         ↔ (maybeTriggerReorder l hosp med supplierExists).created = true
           ∧ 0 < max 0 (policySafetyStock med + policyAvgMonthly med
               - getCurrentStock l ⟨hosp, med.id, none, none⟩))
      ∧ maybeTriggerReorder l hosp med supplierExists
          = maybeTriggerReorder l hosp med supplierExists := by
  by_cases ht : policyReorderPoint med
      < getCurrentStock l ⟨hosp, med.id, none, none⟩
  · have hval : maybeTriggerReorder l hosp med supplierExists
        = ⟨false, getCurrentStock l ⟨hosp, med.id, none, none⟩, none, false⟩ := by
      unfold maybeTriggerReorder
      dsimp only
      rw [if_pos ht]
    rw [hval]
    refine ⟨?_, ?_, ?_, rfl⟩
    · simp only [Bool.false_eq_true, false_iff, not_le]
      exact ht
    · intro hcr
      exact absurd hcr (by simp)
    · simp
  · have hval : maybeTriggerReorder l hosp med supplierExists
        = ⟨true, getCurrentStock l ⟨hosp, med.id, none, none⟩,
            some (max 0 (policySafetyStock med + policyAvgMonthly med
              - getCurrentStock l ⟨hosp, med.id, none, none⟩)),
            decide (0 < max 0 (policySafetyStock med + policyAvgMonthly med
              - getCurrentStock l ⟨hosp, med.id, none, none⟩))⟩ := by
      unfold maybeTriggerReorder
      dsimp only
      rw [if_neg ht, hsup]
      dsimp only
      rw [hfound, if_pos rfl]
    rw [hval]
    refine ⟨?_, fun _ => rfl, ?_, rfl⟩
    · simp only [true_iff]
      exact not_lt.mp ht
    · simp [decide_eq_true_iff]

/-- Witness for C7: the spec's example policy (reorder point 50, safety 10,
monthly consumption 30) at stock 6 with a resolving preferred supplier 9. -/
theorem c7_reorder_trigger_witness :
    ((maybeTriggerReorder exLedger 1 exMedReorder (fun _ => true)).created = true
       ↔ getCurrentStock exLedger ⟨1, exMedReorder.id, none, none⟩
           ≤ policyReorderPoint exMedReorder)
      ∧ ((maybeTriggerReorder exLedger 1 exMedReorder (fun _ => true)).created = true →
          (maybeTriggerReorder exLedger 1 exMedReorder (fun _ => true)).proposedQty
            = some (max 0 (policySafetyStock exMedReorder + policyAvgMonthly exMedReorder
                - getCurrentStock exLedger ⟨1, exMedReorder.id, none, none⟩)))
      ∧ ((maybeTriggerReorder exLedger 1 exMedReorder (fun _ => true)).poCreated = true
         ↔ (maybeTriggerReorder exLedger 1 exMedReorder (fun _ => true)).created = true
           ∧ 0 < max 0 (policySafetyStock exMedReorder + policyAvgMonthly exMedReorder
               - getCurrentStock exLedger ⟨1, exMedReorder.id, none, none⟩))
      ∧ maybeTriggerReorder exLedger 1 exMedReorder (fun _ => true)
          = maybeTriggerReorder exLedger 1 exMedReorder (fun _ => true) :=
  c7_reorder_trigger exLedger 1 exMedReorder (fun _ => true) 9 (by decide) rfl

/-! ### C5 -/

/-- Counterexample to C5 as stated: hospital 1 holds two qualifying expired
scopes, lot "A" of medication 10 (no safety floor, its guard check passes)
and lot "B" of medication 20 (`safetyStock: 100`, its guard check fails).
The claim says scope "A" still gets its `WRITE_OFF` `OUT` and the failure
is reported as skipped; the code instead throws inside the transaction, so
the whole batch aborts with the safety error and appends nothing — no
ledger is produced at all. -/
theorem c5_writeoff_counterexample :
    writeOffExpired woLedger exMedsFun 1 10 none 7 100
        = Except.error (TxError.safety 0 100)
      ∧ writeOffLots woLedger 1 10 none
          = [⟨⟨10, some "A", some 0⟩, 5⟩, ⟨⟨20, some "B", some 0⟩, 5⟩]
      ∧ assertSafetyStock medA
          (getCurrentStock woLedger ⟨1, 10, none, none⟩ - 5) = none :=
  ⟨rfl, rfl, rfl⟩

theorem writeOffLoop_ok_shape (meds : Nat → Option Medication) (hosp : Nat)
    (now : Int) (l0 : List Movement) :
    ∀ (lots : List LotGroup) (l : List Movement) (nid : Nat) (l2 : List Movement),
      writeOffLoop meds hosp now l0 l lots nid = Except.ok l2 →
      ∃ new, l2 = l ++ new
        ∧ new.map (fun mv => (mv.medication, mv.lot, mv.expiryDate, mv.qty))
            = (lots.filter (fun g => (meds g.key.medication).isSome)).map
                (fun g => (g.key.medication, g.key.lot, g.key.expiryDate, g.stock))
        ∧ ∀ mv ∈ new, mv.reason = Reason.WRITE_OFF ∧ mv.type = TxType.OUT
            ∧ mv.hospital = hosp := by
  intro lots
  induction lots with
  | nil =>
    intro l nid l2 h
    unfold writeOffLoop at h
    injection h with h2
    exact ⟨[], by simp [h2], by simp, by simp⟩
  | cons g rest ih =>
    intro l nid l2 h
    unfold writeOffLoop at h
    cases hm : meds g.key.medication with
    | none =>
      rw [hm] at h
      obtain ⟨new, hnew, hmap, hprops⟩ := ih l nid l2 h
      refine ⟨new, hnew, ?_, hprops⟩
      simpa [List.filter_cons, hm] using hmap
    | some med =>
      rw [hm] at h
      dsimp only at h
      cases ha : assertSafetyStock med
          (getCurrentStock l0 ⟨hosp, g.key.medication, none, none⟩ - g.stock) with
      | some e => rw [ha] at h; exact Except.noConfusion h
      | none =>
        rw [ha] at h
        cases hs : saveTx l
            { id := nid, hospital := hosp, medication := g.key.medication,
              type := TxType.OUT, qty := g.stock, uom := med.uom.getD "unit",
              lot := g.key.lot, expiryDate := g.key.expiryDate,
              reason := Reason.WRITE_OFF, refType := RefType.OTHER,
              notes := some "Write-off por caducidad", createdAt := now } with
        | error e => rw [hs] at h; exact Except.noConfusion h
        | ok lmid =>
          rw [hs] at h
          rcases (saveTx_ok_iff _ _ _).mp hs with ⟨hv, hlmid⟩
          obtain ⟨new, hnew, hmap, hprops⟩ := ih lmid (nid + 1) l2 h
          subst hlmid
          refine ⟨_ :: new, by simpa using hnew, ?_, ?_⟩
          · simpa [List.filter_cons, hm, List.map_cons] using hmap
          · intro mv hmv
            rcases List.mem_cons.mp hmv with rfl | hin
            · exact ⟨rfl, rfl, rfl⟩
            · exact hprops mv hin

/-- C5 (amended): in a batch write-off each scope's guard check is
evaluated against the pre-batch committed aggregate stock of its
medication (the session-less aggregate over `l0`); a scope whose
medication record does not resolve is skipped without affecting sibling
scopes, but a qualifying scope whose safety-stock guard check fails aborts
the whole batch: the operation surfaces the safety error (projected value
and floor) and — the transaction rolling back — appends no movement for
any scope.  On success the result reports exactly the qualifying scopes
and appends one `WRITE_OFF` `OUT` per scope whose medication resolves,
carrying that scope's batch key and quantity. -/
theorem c5_writeoff_guard_fatal (meds : Nat → Option Medication) (hosp : Nat)
    (now : Int) (l0 l : List Movement) (g : LotGroup) (rest : List LotGroup)
    (nid : Nat) (cutoff : Int) (medFilter : Option Nat) :
    (meds g.key.medication = none →
       writeOffLoop meds hosp now l0 l (g :: rest) nid
         = writeOffLoop meds hosp now l0 l rest nid)
      ∧ (∀ med, meds g.key.medication = some med →
          0 < policySafetyStock med ∧
            getCurrentStock l0 ⟨hosp, g.key.medication, none, none⟩ - g.stock
              < policySafetyStock med →
          writeOffLoop meds hosp now l0 l (g :: rest) nid
            = Except.error (TxError.safety
                (getCurrentStock l0 ⟨hosp, g.key.medication, none, none⟩ - g.stock)
                (policySafetyStock med)))
      ∧ (∀ e, writeOffLoop meds hosp now l l (writeOffLots l hosp cutoff medFilter) nid
            = Except.error e →
          writeOffExpired l meds hosp cutoff medFilter now nid = Except.error e)
      ∧ (∀ l2 lots2,
          writeOffExpired l meds hosp cutoff medFilter now nid
            = Except.ok (l2, lots2) →
          lots2 = writeOffLots l hosp cutoff medFilter
            ∧ ∃ new, l2 = l ++ new
                ∧ new.map (fun mv => (mv.medication, mv.lot, mv.expiryDate, mv.qty))
                    = (lots2.filter (fun gg => (meds gg.key.medication).isSome)).map
                        (fun gg => (gg.key.medication, gg.key.lot, gg.key.expiryDate,
                          gg.stock))
                ∧ ∀ mv ∈ new, mv.reason = Reason.WRITE_OFF ∧ mv.type = TxType.OUT
                    ∧ mv.hospital = hosp) := by
  refine ⟨?_, ?_, ?_, ?_⟩
  · intro hm
    simp only [writeOffLoop, hm]
  · intro med hm hc
    simp only [writeOffLoop, hm]
    rw [assertSafetyStock_eq, if_pos hc]
  · intro e he
    unfold writeOffExpired
    by_cases hemp : (writeOffLots l hosp cutoff medFilter).isEmpty
    · exfalso
      rw [List.isEmpty_iff] at hemp
      rw [hemp] at he
      unfold writeOffLoop at he
      exact Except.noConfusion he
    · rw [if_neg hemp]
      rw [he]
  · intro l2 lots2 hok
    unfold writeOffExpired at hok
    by_cases hemp : (writeOffLots l hosp cutoff medFilter).isEmpty
    · rw [if_pos hemp] at hok
      injection hok with h2
      rw [List.isEmpty_iff] at hemp
      injection h2 with hl hlots
      subst hl
      subst hlots
      exact ⟨hemp.symm, [], by simp, by simp, by simp⟩
    · rw [if_neg hemp] at hok
      cases hloop : writeOffLoop meds hosp now l l
          (writeOffLots l hosp cutoff medFilter) nid with
      | error e => rw [hloop] at hok; exact Except.noConfusion hok
      | ok lx =>
        rw [hloop] at hok
        injection hok with h2
        injection h2 with hl hlots
        subst hl
        subst hlots
        exact ⟨rfl, writeOffLoop_ok_shape meds hosp now l
          (writeOffLots l hosp cutoff medFilter) l nid lx hloop⟩

/-- Witness for C5 (amended) at the concrete failing scope of medication 20
(`safetyStock: 100`, projected 0 against the pre-batch committed stock). -/
theorem c5_writeoff_guard_fatal_witness :
    (exMedsFun 20 = none →
       writeOffLoop exMedsFun 1 7 woLedger woLedger
           [⟨⟨20, some "B", some 0⟩, 5⟩] 100
         = writeOffLoop exMedsFun 1 7 woLedger woLedger [] 100)
      ∧ (∀ med, exMedsFun 20 = some med →
          0 < policySafetyStock med ∧
            getCurrentStock woLedger ⟨1, 20, none, none⟩ - 5
              < policySafetyStock med →
          writeOffLoop exMedsFun 1 7 woLedger woLedger
              [⟨⟨20, some "B", some 0⟩, 5⟩] 100
            = Except.error (TxError.safety
                (getCurrentStock woLedger ⟨1, 20, none, none⟩ - 5)
                (policySafetyStock med)))
      ∧ (∀ e, writeOffLoop exMedsFun 1 7 woLedger woLedger
              (writeOffLots woLedger 1 10 none) 100
            = Except.error e →
          writeOffExpired woLedger exMedsFun 1 10 none 7 100 = Except.error e)
      ∧ (∀ l2 lots2,
          writeOffExpired woLedger exMedsFun 1 10 none 7 100
            = Except.ok (l2, lots2) →
          lots2 = writeOffLots woLedger 1 10 none
            ∧ ∃ new, l2 = woLedger ++ new
                ∧ new.map (fun mv => (mv.medication, mv.lot, mv.expiryDate, mv.qty))
                    = (lots2.filter (fun gg => (exMedsFun gg.key.medication).isSome)).map
                        (fun gg => (gg.key.medication, gg.key.lot, gg.key.expiryDate,
                          gg.stock))
                ∧ ∀ mv ∈ new, mv.reason = Reason.WRITE_OFF ∧ mv.type = TxType.OUT
                    ∧ mv.hospital = 1) :=
  c5_writeoff_guard_fatal exMedsFun 1 7 woLedger woLedger
    ⟨⟨20, some "B", some 0⟩, 5⟩ [] 100 10 none


/-! ### C4 -/

/-- C4: the claim is right and the code is wrong.  Receiving the full
ordered quantity of the order's single line in one receipt commits the
`IN` movement — afterwards every line's pending quantity over the
committed ledger is 0 — yet the order is left `SENT`, not `RECEIVED`: the
completion recompute inside `session.withTransaction` runs its aggregate
without the session and therefore cannot see the receipt it is completing.
The function's own contract ("Si todas las líneas quedan recibidas
(>= qty ordenada), marca la PO como RECEIVED y setea receivedAt") says the
order must reach `RECEIVED` here.  This theorem evaluates the embedded
code at that failing input: the result status is `SENT` while every
line's pending is 0. -/
theorem c4_receive_session_bug :
    (receivePO [] exPO exMedsPO [{ medication := 5, qty := 10 }] none 9 40).map
        (fun r => (r.2.status,
          exPO.lines.all (fun li => decide (pendingQty r.1 exPO li = 0))))
      = Except.ok (POStatus.SENT, true) := rfl

/-! ### C6 -/

theorem runningRows_map_mv (ms : List Movement) :
    ∀ a, (runningRows a ms).map KardexRow.mv = ms := by
  induction ms with
  | nil => intro a; rfl
  | cons m rest ih =>
    intro a
    simp only [runningRows, List.map_cons, ih]

theorem runningRows_get (ms : List Movement) :
    ∀ (a : Int) (i : Nat) (hi : i < (runningRows a ms).length),
      ((runningRows a ms).get ⟨i, hi⟩).runningBalance
        = a + ((ms.take (i + 1)).map signedQtyExpr).sum := by
  induction ms with
  | nil =>
    intro a i hi
    simp [runningRows] at hi
  | cons m rest ih =>
    intro a i hi
    cases i with
    | zero => simp [runningRows]
    | succ j =>
      have hj : j < (runningRows (a + signedQtyExpr m) rest).length := by
        simpa [runningRows] using hi
      have := ih (a + signedQtyExpr m) j hj
      simp only [runningRows, List.get_cons_succ, this, List.take_succ_cons,
        List.map_cons, List.sum_cons]
      ring

theorem runningRows_getLast (ms : List Movement) :
    ∀ a, ms ≠ [] →
      ((runningRows a ms).map KardexRow.runningBalance).getLast?
        = some (a + (ms.map signedQtyExpr).sum) := by
  induction ms with
  | nil => intro a h; exact absurd rfl h
  | cons m rest ih =>
    intro a _
    cases rest with
    | nil => simp [runningRows]
    | cons m2 r2 =>
      simp only [runningRows, List.map_cons, List.getLast?_cons_cons]
      have := ih (a + signedQtyExpr m) (by simp)
      simp only [runningRows, List.map_cons] at this
      rw [this]
      congr 1
      simp only [List.sum_cons]
      ring

theorem lastBalance_runningRows (ms : List Movement) :
    lastBalance (runningRows 0 ms) = (ms.map signedQtyExpr).sum := by
  cases ms with
  | nil => rfl
  | cons m rest =>
    unfold lastBalance
    rw [runningRows_getLast (m :: rest) 0 (by simp)]
    simp

/-- C6: for every scope and time bound, the kardex rows are exactly the
matching movements sorted by `(createdAt, _id)` — commit time with the
insertion id as the stable secondary tie-break — each row's running
balance is the inclusive prefix sum of signed quantities, and the final
running balance equals the stock projection (`getCurrentStock`) of the
same (hospital, medication) scope over the ledger restricted to the same
time bound. -/
theorem c6_kardex_consistency (l : List Movement) (hosp medId : Nat)
    (dateFrom dateTo : Option Int) (i : Nat)
    (hi : i < (kardexByMedication l hosp medId dateFrom dateTo).length) :
    List.Sorted kardexLE
        ((kardexByMedication l hosp medId dateFrom dateTo).map KardexRow.mv)
      ∧ ((kardexByMedication l hosp medId dateFrom dateTo).map KardexRow.mv).Perm
          (l.filter (kardexMatch hosp medId dateFrom dateTo))
      ∧ ((kardexByMedication l hosp medId dateFrom dateTo).get ⟨i, hi⟩).runningBalance
          = (((((kardexByMedication l hosp medId dateFrom dateTo).map
              KardexRow.mv).take (i + 1)).map signedQtyExpr)).sum
      ∧ lastBalance (kardexByMedication l hosp medId dateFrom dateTo)
          = getCurrentStock (l.filter (dateWindow dateFrom dateTo))
              ⟨hosp, medId, none, none⟩ := by
  refine ⟨?_, ?_, ?_, ?_⟩
  · unfold kardexByMedication
    rw [runningRows_map_mv]
    exact List.sorted_insertionSort kardexLE _
  · unfold kardexByMedication
    rw [runningRows_map_mv]
    exact List.perm_insertionSort kardexLE _
  · unfold kardexByMedication
    rw [runningRows_map_mv]
    have := runningRows_get
      ((l.filter (kardexMatch hosp medId dateFrom dateTo)).insertionSort kardexLE)
      0 i (by simpa [kardexByMedication] using hi)
    simpa using this
  · unfold kardexByMedication
    rw [lastBalance_runningRows]
    have hperm := (List.perm_insertionSort kardexLE
      (l.filter (kardexMatch hosp medId dateFrom dateTo))).map signedQtyExpr
    rw [hperm.sum_eq]
    rw [getCurrentStock_eq, List.filter_filter]
    have hfc : ∀ x ∈ l, kardexMatch hosp medId dateFrom dateTo x
        = (matchScope ⟨hosp, medId, none, none⟩ x && dateWindow dateFrom dateTo x) := by
      intro x _
      simp only [kardexMatch, matchScope, optEq, dateWindow, Bool.and_true]
      cases dateFrom <;> cases dateTo <;>
        simp [Bool.and_assoc, Bool.and_comm, Bool.and_left_comm]
    rw [List.filter_congr hfc]

/-- Witness for C6 at the two-movement ledger (row 0 of the unbounded
kardex of hospital 1, medication 5). -/
theorem c6_kardex_consistency_witness :
    (0 < (kardexByMedication exLedger 1 5 none none).length
      ∧ List.Sorted kardexLE
          ((kardexByMedication exLedger 1 5 none none).map KardexRow.mv))
      ∧ lastBalance (kardexByMedication exLedger 1 5 none none)
          = getCurrentStock (exLedger.filter (dateWindow none none))
              ⟨1, 5, none, none⟩ :=
  ⟨⟨by decide,
    (c6_kardex_consistency exLedger 1 5 none none 0 (by decide)).1⟩,
   (c6_kardex_consistency exLedger 1 5 none none 0 (by decide)).2.2.2⟩

end ERP
